import Mathlib

/-!
Shallow embedding of `unified_stack_manager/core/rollback.py` (class
`RollbackManager`): the snapshot store and protected-operation controller.

The filesystem is modelled as an association list from flat path strings to
entries; an entry is a regular file or a directory, each carrying abstract
content (a `Nat`).  The `shutil`/`os` primitives used by the source
(`copy2`, `copytree`, `rmtree`, `Path.exists`, `Path.is_dir`,
`Path.unlink`) are modelled with the error behaviour relevant to the
source's `except (IOError, OSError)` handlers:
  * `copy2` fails when the source is a directory (IsADirectoryError) or
    missing, or when the destination is an existing directory;
  * `copytree` fails when the destination already exists (FileExistsError),
    or the source is a file or missing;
  * `rmtree` fails on a non-directory.
The caller-supplied body of the `with` block (`work`) is modelled as a
function `FS → FS × Option ε`: it returns the mutated filesystem together
with `some e` when it raises exception `e` (mutations made before the raise
persist, as on a real filesystem) and `none` when it completes normally.
-/

namespace USManager

/-- A filesystem entry: a regular file or a directory, with abstract content. -/
inductive Entry where
  | file (content : Nat)
  | dir (content : Nat)
deriving DecidableEq, Repr

/-- Paths are flat strings. -/
abbrev Path := String

/-- A filesystem: an association list from paths to entries (first match wins). -/
abbrev FS := List (Path × Entry)

namespace FS

/-- Look up the entry at a path. -/
def lookup : FS → Path → Option Entry
  | [], _ => none
  | (q, e) :: rest, p => if q = p then some e else lookup rest p

/-- Remove any entry at a path. -/
def erase (fs : FS) (p : Path) : FS :=
  fs.filter (fun qe => qe.1 ≠ p)

/-- Create or overwrite the entry at a path. -/
def insert (fs : FS) (p : Path) (e : Entry) : FS :=
  (p, e) :: erase fs p

end FS

/-- Model of `Path.exists()`. -/
def exists_ (fs : FS) (p : Path) : Bool :=
  (FS.lookup fs p).isSome

/-- Model of `Path.is_dir()`: `false` for files and for absent paths. -/
def is_dir (fs : FS) (p : Path) : Bool :=
  match FS.lookup fs p with
  | some (.dir _) => true
  | _ => false

/-- The `IOError`/`OSError` conditions the source catches. -/
inductive OSErr where
  | isADirectory
  | fileExists
  | notADirectory
  | notFound
deriving DecidableEq, Repr

/-- Model of `shutil.copy2(src, dst)`: copy a regular file, overwriting a plain-file
destination; raises if `src` is a directory or missing, or if `dst` is an
existing directory. -/
def copy2 (fs : FS) (src dst : Path) : Except OSErr FS :=
  match FS.lookup fs src with
  | some (.file c) =>
    match FS.lookup fs dst with
    | some (.dir _) => .error .isADirectory
    | _ => .ok (FS.insert fs dst (.file c))
  | some (.dir _) => .error .isADirectory
  | none => .error .notFound

/-- Model of `shutil.copytree(src, dst)`: copy a directory tree; raises
`FileExistsError` if `dst` already exists, and fails if `src` is a plain
file or missing. -/
def copytree (fs : FS) (src dst : Path) : Except OSErr FS :=
  if exists_ fs dst then .error .fileExists
  else
    match FS.lookup fs src with
    | some (.dir c) => .ok (FS.insert fs dst (.dir c))
    | some (.file _) => .error .notADirectory
    | none => .error .notFound

/-- Model of `shutil.rmtree(p)`: remove a directory tree; raises on a non-directory. -/
def rmtree (fs : FS) (p : Path) : Except OSErr FS :=
  match FS.lookup fs p with
  | some (.dir _) => .ok (FS.erase fs p)
  | _ => .error .notADirectory

/-- The `RollbackManager` state from `__init__`: the backup directory path,
and whether `backup_dir.mkdir(parents=True, exist_ok=True)` succeeded.
`__init__` catches `PermissionError` and only prints a warning, so
construction always succeeds; `mkRollbackManager` is accordingly total. -/
structure RollbackManager where
  backup_dir : Path
  dirOk : Bool
deriving DecidableEq, Repr

/-- Model of `RollbackManager.__init__(backup_dir)`: attempt to create the backup
directory; on `PermissionError` (`mkdirPermitted = false`) print a warning
and continue with the directory absent. -/
def mkRollbackManager (backup_dir : Path) (mkdirPermitted : Bool) : RollbackManager :=
  { backup_dir := backup_dir, dirOk := mkdirPermitted }

/-- The character list after the last '/' (second argument accumulates the
current segment). -/
def lastSegAux : List Char → List Char → List Char
  | [], acc => acc
  | c :: rest, acc =>
    if c = '/' then lastSegAux rest [] else lastSegAux rest (acc ++ [c])

/-- Model of `target.name`: the final path segment. -/
def pathName (p : Path) : String :=
  String.mk (lastSegAux p.data [])

/-- Model of `.replace('/', '_')` (character-wise, as both patterns have length 1). -/
def sanitize (s : String) : String :=
  String.mk (s.data.map (fun c => if c = '/' then '_' else c))

/-- Model of `self.backup_dir / f"{backup_id}_{target.name.replace('/', '_')}"`. -/
def backupPath (mgr : RollbackManager) (backup_id : String) (target : Path) : Path :=
  mgr.backup_dir ++ "/" ++ backup_id ++ "_" ++ sanitize (pathName target)

/-- One iteration of the backup loop in `protected_operation` (lines 36-45):
if the target exists, copy it (copytree for directories, copy2 for files)
to its derived backup path; an `IOError`/`OSError` during the copy is caught
and only a warning printed, producing no snapshot.  When the backup
directory could not be created (`dirOk = false`) the copy itself raises
(missing destination parent), which is caught by the same handler. -/
def doSnapshot (mgr : RollbackManager) (backup_id : String) (fs : FS) (target : Path) :
    FS × Option (Path × Path) :=
  if exists_ fs target then
    let backup_path := backupPath mgr backup_id target
    if mgr.dirOk then
      if is_dir fs target then
        match copytree fs target backup_path with
        | .ok fs2 => (fs2, some (target, backup_path))
        | .error _ => (fs, none)
      else
        match copy2 fs target backup_path with
        | .ok fs2 => (fs2, some (target, backup_path))
        | .error _ => (fs, none)
    else (fs, none)
  else (fs, none)

/-- The backup phase: `for target in targets: ...`, collecting the
`(target, backup_path)` pairs appended to `backups` in order. -/
def snapshotPhase (mgr : RollbackManager) (backup_id : String) :
    FS → List Path → FS × List (Path × Path)
  | fs, [] => (fs, [])
  | fs, t :: rest =>
    let r1 := doSnapshot mgr backup_id fs t
    let r2 := snapshotPhase mgr backup_id r1.1 rest
    (r2.1, (match r1.2 with
            | some pair => pair :: r2.2
            | none => r2.2))

/-- One iteration of the rollback loop (lines 59-67): if `original` is a
directory *now*, remove it and copy the backup tree over; otherwise copy
the backup file over the original.  An `IOError`/`OSError` is caught and a
FATAL message printed; the `Bool` records whether the restore succeeded.
If `rmtree` succeeded but the subsequent `copytree` raised, the original
stays deleted. -/
def restoreOne (fs : FS) (original backup : Path) : FS × Bool :=
  if is_dir fs original then
    match rmtree fs original with
    | .ok fs1 =>
      match copytree fs1 backup original with
      | .ok fs2 => (fs2, true)
      | .error _ => (fs1, false)
    | .error _ => (fs, false)
  else
    match copy2 fs backup original with
    | .ok fs1 => (fs1, true)
    | .error _ => (fs, false)

/-- The rollback loop: `for original, backup in backups: ...`, recording for
each pair whether its restore succeeded.  A failed restore never stops the
loop. -/
def restoreAll : FS → List (Path × Path) → FS × List ((Path × Path) × Bool)
  | fs, [] => (fs, [])
  | fs, (o, b) :: rest =>
    let r1 := restoreOne fs o b
    let r2 := restoreAll r1.1 rest
    (r2.1, ((o, b), r1.2) :: r2.2)

/-- A backup artifact as seen by `_cleanup_old_backups`: its name, its
`st_mtime`, and whether `unlink()` succeeds on it (an injected
`IOError`/`OSError`, e.g. permissions, or `unlink` on a directory artifact). -/
structure Artifact where
  name : Path
  mtime : Int
  unlinkOk : Bool
deriving DecidableEq, Repr

/-- The sweep loop of `_cleanup_old_backups`: the `try` block wraps the
whole `for backup in self.backup_dir.glob('*')` loop, so an `OSError` from
one `unlink` aborts the remaining iterations (only a warning is printed).
Returns the artifacts still present and whether a warning was printed. -/
def sweep (cutoff : Int) : List Artifact → List Artifact × Bool
  | [] => ([], false)
  | a :: rest =>
    if a.mtime < cutoff then
      if a.unlinkOk then sweep cutoff rest
      else (a :: rest, true)
    else
      let r := sweep cutoff rest
      (a :: r.1, r.2)

/-- Model of `RollbackManager._cleanup_old_backups(days)` over the current contents
of the backup directory, with `now = time.time()`. -/
def cleanup_old_backups (days : Int) (now : Int) (arts : List Artifact) :
    List Artifact × Bool :=
  sweep (now - days * 86400) arts

/-- The observable outcome of one `protected_operation` invocation:
the final filesystem, the `backups` list it built, the restore attempts it
made (with success flags), the backup-directory contents after any eviction
sweep, and the exception re-raised to the caller (`none` = normal return). -/
structure OpResult (ε : Type) where
  fs : FS
  snapshots : List (Path × Path)
  restored : List ((Path × Path) × Bool)
  artifacts : List Artifact
  outcome : Option ε
deriving DecidableEq

/-- Model of `RollbackManager.protected_operation(operation_name, targets)` around a
body `work`: build `backup_id`, snapshot every existing target, run the
body; on normal completion call `_cleanup_old_backups(days=7)` and return
normally; if the body raises, restore every collected backup in creation
order and re-raise the original exception. -/
def protected_operation {ε : Type} (mgr : RollbackManager)
    (operation_name timestamp : String) (targets : List Path)
    (work : FS → FS × Option ε) (arts : List Artifact) (now : Int)
    (fs : FS) : OpResult ε :=
  let backup_id := operation_name ++ "_" ++ timestamp
  let s := snapshotPhase mgr backup_id fs targets
  let w := work s.1
  match w.2 with
  | none =>
    let cleaned := cleanup_old_backups 7 now arts
    { fs := w.1, snapshots := s.2, restored := [], artifacts := cleaned.1,
      outcome := none }
  | some e =>
    let r := restoreAll w.1 s.2
    { fs := r.1, snapshots := s.2, restored := r.2, artifacts := arts,
      outcome := some e }

/-! Helper lemmas about the filesystem model. -/

theorem FS.lookup_erase (fs : FS) (q p : Path) :
    FS.lookup (FS.erase fs q) p = if q = p then none else FS.lookup fs p := by
  induction fs with
  | nil => simp [FS.erase, FS.lookup]
  | cons a rest ih =>
    obtain ⟨r, e⟩ := a
    by_cases hrq : r = q <;> by_cases hqp : q = p <;>
      simp_all [FS.erase, FS.lookup, List.filter_cons]

theorem FS.lookup_insert_self (fs : FS) (p : Path) (e : Entry) :
    FS.lookup (FS.insert fs p e) p = some e := by
  simp [FS.insert, FS.lookup]

theorem FS.lookup_insert_ne (fs : FS) (p q : Path) (e : Entry) (h : p ≠ q) :
    FS.lookup (FS.insert fs p e) q = FS.lookup fs q := by
  simp [FS.insert, FS.lookup, h, FS.lookup_erase]

theorem FS.lookup_erase_self (fs : FS) (p : Path) :
    FS.lookup (FS.erase fs p) p = none := by
  simp [FS.lookup_erase]

theorem FS.lookup_erase_ne (fs : FS) (q p : Path) (h : q ≠ p) :
    FS.lookup (FS.erase fs q) p = FS.lookup fs p := by
  simp [FS.lookup_erase, h]

/-- Every pair in `backups` gets exactly one restore attempt, in order,
whatever the outcomes of the individual restores. -/
theorem restoreAll_map_fst (bs : List (Path × Path)) : ∀ fs : FS,
    ((restoreAll fs bs).2).map Prod.fst = bs := by
  induction bs with
  | nil => intro fs; rfl
  | cons b rest ih =>
    intro fs
    obtain ⟨o, bk⟩ := b
    simp [restoreAll, ih]

/-- With the backup directory missing, every per-target copy raises and is
caught, so the backup phase collects nothing and leaves the filesystem
untouched. -/
theorem snapshotPhase_dirOk_false (mgr : RollbackManager) (bid : String)
    (h : mgr.dirOk = false) : ∀ (fs : FS) (ts : List Path),
    snapshotPhase mgr bid fs ts = (fs, []) := by
  intro fs ts
  induction ts generalizing fs with
  | nil => rfl
  | cons t rest ih => simp [snapshotPhase, doSnapshot, h, ih]

/-! Theorems for the individual claims. -/

/-- C3: whenever the body of a protected operation raises any exception, the
controller attempts a restore for every collected snapshot (one attempt per
snapshot, in creation order) and then re-raises that same exception to its
caller; the triggering error is never swallowed, even if every restore
succeeds. -/
theorem claim_C3 {ε : Type} (mgr : RollbackManager) (opname ts : String)
    (targets : List Path) (work : FS → FS × Option ε) (arts : List Artifact)
    (now : Int) (fs : FS) (e : ε)
    (h : (work (snapshotPhase mgr (opname ++ "_" ++ ts) fs targets).1).2 = some e) :
    (protected_operation mgr opname ts targets work arts now fs).outcome = some e
    ∧ ((protected_operation mgr opname ts targets work arts now fs).restored).map
        Prod.fst
      = (protected_operation mgr opname ts targets work arts now fs).snapshots := by
  constructor
  · simp [protected_operation, h]
  · simp [protected_operation, h, restoreAll_map_fst]

/-- C4: when the body completes without failure, the filesystem is left
exactly as the body put it (no restore happens), the controller runs the
7-day eviction sweep, and the outcome is success — for every backup-directory
content, including ones on which eviction fails. -/
theorem claim_C4 {ε : Type} (mgr : RollbackManager) (opname ts : String)
    (targets : List Path) (work : FS → FS × Option ε) (arts : List Artifact)
    (now : Int) (fs : FS)
    (h : (work (snapshotPhase mgr (opname ++ "_" ++ ts) fs targets).1).2 = none) :
    (protected_operation mgr opname ts targets work arts now fs).fs
      = (work (snapshotPhase mgr (opname ++ "_" ++ ts) fs targets).1).1
    ∧ (protected_operation mgr opname ts targets work arts now fs).restored = []
    ∧ (protected_operation mgr opname ts targets work arts now fs).artifacts
      = (cleanup_old_backups 7 now arts).1
    ∧ (protected_operation mgr opname ts targets work arts now fs).outcome = none := by
  refine ⟨?_, ?_, ?_, ?_⟩ <;> simp [protected_operation, h]

/-- C5: when the backup directory could not be created, construction still
yields a manager (`mkRollbackManager` is total), and a protected operation
records zero snapshots, still runs its body on the unchanged filesystem, and
returns the body's own outcome. -/
theorem claim_C5 {ε : Type} (d : Path) (opname ts : String) (targets : List Path)
    (work : FS → FS × Option ε) (arts : List Artifact) (now : Int) (fs : FS) :
    (protected_operation (mkRollbackManager d false) opname ts targets work arts now fs).snapshots = []
    ∧ (protected_operation (mkRollbackManager d false) opname ts targets work arts now fs).fs
      = (work fs).1
    ∧ (protected_operation (mkRollbackManager d false) opname ts targets work arts now fs).outcome
      = (work fs).2 := by
  have hs := snapshotPhase_dirOk_false (mkRollbackManager d false)
    (opname ++ "_" ++ ts) rfl fs targets
  cases hw : (work fs).2 <;> refine ⟨?_, ?_, ?_⟩ <;>
    simp [protected_operation, hs, hw, restoreAll]

/-- C8: snapshotting a path that does not exist returns no snapshot record
and performs no filesystem writes: the per-target step leaves the filesystem
(backup store included) unchanged, and the backup phase over a target list
beginning with the absent path behaves exactly as over the rest. -/
theorem claim_C8 (mgr : RollbackManager) (backup_id : String) (fs : FS)
    (p : Path) (rest : List Path) (h : FS.lookup fs p = none) :
    doSnapshot mgr backup_id fs p = (fs, none)
    ∧ snapshotPhase mgr backup_id fs (p :: rest) = snapshotPhase mgr backup_id fs rest := by
  have h1 : doSnapshot mgr backup_id fs p = (fs, none) := by
    simp [doSnapshot, exists_, h]
  exact ⟨h1, by simp [snapshotPhase, h1]⟩

/-- C1: a protected operation over a file target whose body overwrites the
file's content and then raises restores the file to its pre-call content and
re-raises the body's exact error as the outcome.  The hypotheses say the
backup directory was created, the derived backup path is unoccupied, and the
backup path differs from the target (the store is a separate filesystem
area). -/
theorem claim_C1 {ε : Type} (mgr : RollbackManager) (opname ts : String)
    (a bp : Path) (c c2 : Nat) (e : ε) (arts : List Artifact) (now : Int)
    (fs : FS) (hdir : mgr.dirOk = true)
    (ha : FS.lookup fs a = some (.file c))
    (hbpdef : backupPath mgr (opname ++ "_" ++ ts) a = bp)
    (hbp : FS.lookup fs bp = none) (hne : bp ≠ a) :
    FS.lookup (protected_operation mgr opname ts [a]
        (fun s => (FS.insert s a (.file c2), some e)) arts now fs).fs a
      = some (.file c)
    ∧ (protected_operation mgr opname ts [a]
        (fun s => (FS.insert s a (.file c2), some e)) arts now fs).outcome
      = some e := by
  have h1 : snapshotPhase mgr (opname ++ "_" ++ ts) fs [a]
      = (FS.insert fs bp (.file c), [(a, bp)]) := by
    simp [snapshotPhase, doSnapshot, exists_, is_dir, copy2, ha, hdir, hbpdef, hbp]
  have hane : a ≠ bp := fun hh => hne hh.symm
  have hbp1 : FS.lookup (FS.insert (FS.insert fs bp (.file c)) a (.file c2)) bp
      = some (.file c) := by
    rw [FS.lookup_insert_ne _ _ _ _ hane, FS.lookup_insert_self]
  have ha2 : FS.lookup (FS.insert (FS.insert fs bp (.file c)) a (.file c2)) a
      = some (.file c2) := FS.lookup_insert_self _ _ _
  have h2 : restoreOne (FS.insert (FS.insert fs bp (.file c)) a (.file c2)) a bp
      = (FS.insert (FS.insert (FS.insert fs bp (.file c)) a (.file c2)) a (.file c),
         true) := by
    simp [restoreOne, is_dir, copy2, ha2, hbp1]
  constructor
  · simp [protected_operation, h1, restoreAll, h2, FS.lookup_insert_self]
  · simp [protected_operation, h1, restoreAll, h2]

/-- C2: on body failure the controller attempts a restore for every
`(original, backup)` pair in the snapshots list, in creation order, with one
attempt per pair regardless of earlier restore failures; moreover, in the
concrete two-target scenario where restoring `A` itself fails (the body
replaced the file `A` with a directory), `B` is still attempted and its
content actually restored. -/
theorem claim_C2 {ε : Type} (mgr : RollbackManager) (opname ts : String)
    (targets : List Path) (work : FS → FS × Option ε) (arts : List Artifact)
    (now : Int) (fs : FS) (e : ε)
    (h : (work (snapshotPhase mgr (opname ++ "_" ++ ts) fs targets).1).2 = some e) :
    ((protected_operation mgr opname ts targets work arts now fs).restored).map
        Prod.fst
      = (protected_operation mgr opname ts targets work arts now fs).snapshots
    ∧ (protected_operation (mkRollbackManager ("bk") true) ("op") ("t")
        [("A"), ("B")]
        (fun s => (FS.insert (FS.insert s ("A") (.dir 7)) ("B") (.file 9), some 42))
        [] 0 [(("A"), .file 1), (("B"), .file 2)]).restored
      = [((("A"), ("bk/op_t_A")), false), ((("B"), ("bk/op_t_B")), true)]
    ∧ FS.lookup (protected_operation (mkRollbackManager ("bk") true) ("op") ("t")
        [("A"), ("B")]
        (fun s => (FS.insert (FS.insert s ("A") (.dir 7)) ("B") (.file 9), some 42))
        [] 0 [(("A"), .file 1), (("B"), .file 2)]).fs ("B")
      = some (.file 2) := by
  refine ⟨?_, by decide, by decide⟩
  simp [protected_operation, h, restoreAll_map_fst]

/-- C10: restore chooses its branch from the type of the original path at
restore time, so a target that was a directory when snapshotted but was
deleted by the body takes the file branch, whose `copy2` from the directory
backup fails (reported as requiring manual intervention); the target stays
absent and the body's error is re-raised. -/
theorem claim_C10 {ε : Type} (mgr : RollbackManager) (opname ts : String)
    (d bp : Path) (c : Nat) (e : ε) (arts : List Artifact) (now : Int) (fs : FS)
    (hdir : mgr.dirOk = true)
    (hd : FS.lookup fs d = some (.dir c))
    (hbpdef : backupPath mgr (opname ++ "_" ++ ts) d = bp)
    (hbp : FS.lookup fs bp = none) (hne : bp ≠ d) :
    FS.lookup (protected_operation mgr opname ts [d]
        (fun s => (FS.erase s d, some e)) arts now fs).fs d = none
    ∧ (protected_operation mgr opname ts [d]
        (fun s => (FS.erase s d, some e)) arts now fs).restored
      = [((d, bp), false)]
    ∧ (protected_operation mgr opname ts [d]
        (fun s => (FS.erase s d, some e)) arts now fs).outcome = some e := by
  have h1 : snapshotPhase mgr (opname ++ "_" ++ ts) fs [d]
      = (FS.insert fs bp (.dir c), [(d, bp)]) := by
    simp [snapshotPhase, doSnapshot, exists_, is_dir, copytree, hd, hdir, hbpdef, hbp]
  have hd2 : FS.lookup (FS.erase (FS.insert fs bp (.dir c)) d) d = none :=
    FS.lookup_erase_self _ _
  have hbp2 : FS.lookup (FS.erase (FS.insert fs bp (.dir c)) d) bp
      = some (.dir c) := by
    rw [FS.lookup_erase_ne _ _ _ (fun hh => hne hh.symm)]
    exact FS.lookup_insert_self _ _ _
  have h2 : restoreOne (FS.erase (FS.insert fs bp (.dir c)) d) d bp
      = (FS.erase (FS.insert fs bp (.dir c)) d, false) := by
    simp [restoreOne, is_dir, copy2, hd2, hbp2]
  refine ⟨?_, ?_, ?_⟩ <;> simp [protected_operation, h1, restoreAll, h2, hd2]

/-- C9 counterexample: with an existing directory target listed twice, the
second occurrence derives the same backup path, its `copytree` hits
`FileExistsError` there and is skipped with a warning, so the snapshots list
gets one entry, not one per occurrence. -/
theorem claim_C9_counterexample :
    (snapshotPhase (mkRollbackManager ("bk") true) ("op_t")
        [(("D"), .dir 3)] [("D"), ("D")]).2
      = [(("D"), ("bk/op_t_D"))]
    ∧ ((snapshotPhase (mkRollbackManager ("bk") true) ("op_t")
        [(("D"), .dir 3)] [("D"), ("D")]).2).length ≠ 2 := by
  decide

/-- C9 amended: duplicate occurrences of an existing *file* target are each
snapshotted independently, producing one snapshots-list entry per occurrence
(all sharing the same derived backup path, re-copied each time); for a
*directory* target only the first occurrence is backed up — each later
duplicate fails with `FileExistsError` at the already-created backup path
and is skipped with a warning. -/
theorem claim_C9_amended (mgr : RollbackManager) (bid : String) (p bp : Path)
    (c : Nat) (fs : FS) (hdir : mgr.dirOk = true)
    (hbpdef : backupPath mgr bid p = bp)
    (hbp : FS.lookup fs bp = none) (hne : bp ≠ p) :
    (FS.lookup fs p = some (.file c) →
      (snapshotPhase mgr bid fs [p, p]).2 = [(p, bp), (p, bp)])
    ∧ (FS.lookup fs p = some (.dir c) →
      (snapshotPhase mgr bid fs [p, p]).2 = [(p, bp)]) := by
  constructor
  · intro hp
    have hl1 : FS.lookup (FS.insert fs bp (.file c)) p = some (.file c) := by
      rw [FS.lookup_insert_ne _ _ _ _ hne]
      exact hp
    have hl2 : FS.lookup (FS.insert fs bp (.file c)) bp = some (.file c) :=
      FS.lookup_insert_self _ _ _
    simp [snapshotPhase, doSnapshot, exists_, is_dir, copy2, hp, hdir, hbpdef,
      hbp, hl1, hl2]
  · intro hp
    have hl1 : FS.lookup (FS.insert fs bp (.dir c)) p = some (.dir c) := by
      rw [FS.lookup_insert_ne _ _ _ _ hne]
      exact hp
    have hl2 : FS.lookup (FS.insert fs bp (.dir c)) bp = some (.dir c) :=
      FS.lookup_insert_self _ _ _
    simp [snapshotPhase, doSnapshot, exists_, is_dir, copytree, hp, hdir, hbpdef,
      hbp, hl1, hl2]

/-- With no unlink failure among the artifacts older than the cutoff, the
sweep deletes exactly those and reports no warning. -/
theorem sweep_no_failures (cutoff : Int) : ∀ arts : List Artifact,
    (∀ x ∈ arts, x.mtime < cutoff → x.unlinkOk = true) →
    sweep cutoff arts
      = (arts.filter (fun x => ! decide (x.mtime < cutoff)), false) := by
  intro arts
  induction arts with
  | nil => intro _; rfl
  | cons a rest ih =>
    intro h
    have hrest := ih (fun x hx hmx => h x (List.mem_cons_of_mem _ hx) hmx)
    by_cases hm : a.mtime < cutoff
    · have ha := h a (List.mem_cons_self _ _) hm
      simp [sweep, hm, ha, hrest, List.filter_cons]
    · simp [sweep, hm, hrest, List.filter_cons]

/-- The first old artifact whose unlink raises aborts the rest of the sweep:
everything before it that is old has been deleted, it and everything after
it remain, and the sweep returns normally with a warning. -/
theorem sweep_abort (cutoff : Int) (bad : Artifact) (post : List Artifact)
    (hb1 : bad.mtime < cutoff) (hb2 : bad.unlinkOk = false) :
    ∀ pre : List Artifact, (∀ x ∈ pre, x.mtime < cutoff → x.unlinkOk = true) →
    sweep cutoff (pre ++ bad :: post)
      = (pre.filter (fun x => ! decide (x.mtime < cutoff)) ++ bad :: post,
         true) := by
  intro pre
  induction pre with
  | nil =>
    intro _
    simp [sweep, hb1, hb2]
  | cons a rest ih =>
    intro h
    have hrest := ih (fun x hx hmx => h x (List.mem_cons_of_mem _ hx) hmx)
    by_cases hm : a.mtime < cutoff
    · have ha := h a (List.mem_cons_self _ _) hm
      simp [sweep, hm, ha, hrest, List.filter_cons]
    · simp [sweep, hm, hrest, List.filter_cons]

/-- C6 counterexample: with two artifacts both older than the 7-day cutoff,
the first of which fails to unlink, the sweep stops at the failure: the
second old artifact is still present afterwards, although the claim says it
would be examined and deleted. -/
theorem claim_C6_counterexample :
    (cleanup_old_backups 7 691200 [⟨("a"), 0, false⟩, ⟨("b"), 0, true⟩]).1
      = [⟨("a"), 0, false⟩, ⟨("b"), 0, true⟩]
    ∧ ((⟨("b"), 0, true⟩ : Artifact).mtime < 691200 - 7 * 86400
       ∧ (⟨("b"), 0, true⟩ : Artifact).unlinkOk = true) := by
  decide

/-- C6 amended: a filesystem error while deleting one artifact is reported
as a warning and aborts the remainder of the sweep: old artifacts before the
failing one have been deleted, while the failing artifact and every artifact
after it are left in place; the eviction call itself still returns without
raising. -/
theorem claim_C6_amended (days now : Int) (pre post : List Artifact)
    (bad : Artifact)
    (hpre : ∀ x ∈ pre, x.mtime < now - days * 86400 → x.unlinkOk = true)
    (hb1 : bad.mtime < now - days * 86400) (hb2 : bad.unlinkOk = false) :
    cleanup_old_backups days now (pre ++ bad :: post)
      = (pre.filter (fun x => ! decide (x.mtime < now - days * 86400))
          ++ bad :: post, true) := by
  unfold cleanup_old_backups
  exact sweep_abort _ bad post hb1 hb2 pre hpre

/-- C7: when no unlink fails, `_cleanup_old_backups(days)` deletes exactly
the artifacts whose last-modified time is strictly older than
`now - days*86400` and retains every artifact at least as new as the
cutoff. -/
theorem claim_C7 (days now : Int) (arts : List Artifact)
    (h : ∀ x ∈ arts, x.mtime < now - days * 86400 → x.unlinkOk = true) :
    (cleanup_old_backups days now arts).1
      = arts.filter (fun x => ! decide (x.mtime < now - days * 86400))
    ∧ (∀ x ∈ arts, x.mtime < now - days * 86400 →
        x ∉ (cleanup_old_backups days now arts).1)
    ∧ (∀ x ∈ arts, now - days * 86400 ≤ x.mtime →
        x ∈ (cleanup_old_backups days now arts).1) := by
  have hs : cleanup_old_backups days now arts
      = (arts.filter (fun x => ! decide (x.mtime < now - days * 86400)), false) := by
    unfold cleanup_old_backups
    exact sweep_no_failures _ arts h
  refine ⟨by rw [hs], ?_, ?_⟩
  · intro x hx hm
    rw [hs]
    simp [List.mem_filter, hm]
  · intro x hx hm
    rw [hs]
    simp [List.mem_filter, hx, not_lt.mpr hm]

/-- Witness for C1 at a concrete instance: file `A` with content 1,
overwritten to 9 by a body that then raises `0`. -/
theorem claim_C1_witness :
    (mkRollbackManager ("bk") true).dirOk = true
    ∧ FS.lookup [(("A"), Entry.file 1)] ("A") = some (.file 1)
    ∧ backupPath (mkRollbackManager ("bk") true) ("op" ++ "_" ++ "t") ("A")
      = ("bk/op_t_A")
    ∧ FS.lookup [(("A"), Entry.file 1)] ("bk/op_t_A") = none
    ∧ ("bk/op_t_A") ≠ ("A")
    ∧ FS.lookup (protected_operation (mkRollbackManager ("bk") true) ("op") ("t")
        [("A")] (fun s => (FS.insert s ("A") (.file 9), some 0)) [] 0
        [(("A"), Entry.file 1)]).fs ("A") = some (.file 1)
    ∧ (protected_operation (mkRollbackManager ("bk") true) ("op") ("t")
        [("A")] (fun s => (FS.insert s ("A") (.file 9), some 0)) [] 0
        [(("A"), Entry.file 1)]).outcome = some 0 :=
  ⟨by decide, by decide, by decide, by decide, by decide,
   (claim_C1 (mkRollbackManager ("bk") true) ("op") ("t") ("A") ("bk/op_t_A")
     1 9 0 [] 0 [(("A"), Entry.file 1)]
     (by decide) (by decide) (by decide) (by decide) (by decide)).1,
   (claim_C1 (mkRollbackManager ("bk") true) ("op") ("t") ("A") ("bk/op_t_A")
     1 9 0 [] 0 [(("A"), Entry.file 1)]
     (by decide) (by decide) (by decide) (by decide) (by decide)).2⟩

/-- Witness for C2 at the concrete two-target scenario itself. -/
theorem claim_C2_witness :
    ((fun s => (FS.insert (FS.insert s ("A") (Entry.dir 7)) ("B") (Entry.file 9),
        some 42))
      ((snapshotPhase (mkRollbackManager ("bk") true) ("op" ++ "_" ++ "t")
        [(("A"), Entry.file 1), (("B"), Entry.file 2)] [("A"), ("B")]).1)).2
      = some 42
    ∧ (((protected_operation (mkRollbackManager ("bk") true) ("op") ("t")
        [("A"), ("B")]
        (fun s => (FS.insert (FS.insert s ("A") (Entry.dir 7)) ("B") (Entry.file 9),
          some 42))
        [] 0 [(("A"), Entry.file 1), (("B"), Entry.file 2)]).restored).map Prod.fst
        = (protected_operation (mkRollbackManager ("bk") true) ("op") ("t")
          [("A"), ("B")]
          (fun s => (FS.insert (FS.insert s ("A") (Entry.dir 7)) ("B") (Entry.file 9),
            some 42))
          [] 0 [(("A"), Entry.file 1), (("B"), Entry.file 2)]).snapshots
      ∧ (protected_operation (mkRollbackManager ("bk") true) ("op") ("t")
          [("A"), ("B")]
          (fun s => (FS.insert (FS.insert s ("A") (.dir 7)) ("B") (.file 9), some 42))
          [] 0 [(("A"), .file 1), (("B"), .file 2)]).restored
        = [((("A"), ("bk/op_t_A")), false), ((("B"), ("bk/op_t_B")), true)]
      ∧ FS.lookup (protected_operation (mkRollbackManager ("bk") true) ("op") ("t")
          [("A"), ("B")]
          (fun s => (FS.insert (FS.insert s ("A") (.dir 7)) ("B") (.file 9), some 42))
          [] 0 [(("A"), .file 1), (("B"), .file 2)]).fs ("B")
        = some (.file 2)) :=
  ⟨by decide,
   claim_C2 (mkRollbackManager ("bk") true) ("op") ("t") [("A"), ("B")]
     (fun s => (FS.insert (FS.insert s ("A") (Entry.dir 7)) ("B") (Entry.file 9),
       some 42))
     [] 0 [(("A"), Entry.file 1), (("B"), Entry.file 2)] 42 (by decide)⟩

/-- Witness for C3: a body that mutates `A` and raises `5`. -/
theorem claim_C3_witness :
    ((fun s => (FS.insert s ("A") (Entry.file 9), some 5))
      ((snapshotPhase (mkRollbackManager ("bk") true) ("op" ++ "_" ++ "t")
        [(("A"), Entry.file 1)] [("A")]).1)).2 = some 5
    ∧ ((protected_operation (mkRollbackManager ("bk") true) ("op") ("t") [("A")]
        (fun s => (FS.insert s ("A") (Entry.file 9), some 5)) [] 0
        [(("A"), Entry.file 1)]).outcome = some 5
      ∧ ((protected_operation (mkRollbackManager ("bk") true) ("op") ("t") [("A")]
          (fun s => (FS.insert s ("A") (Entry.file 9), some 5)) [] 0
          [(("A"), Entry.file 1)]).restored).map Prod.fst
        = (protected_operation (mkRollbackManager ("bk") true) ("op") ("t") [("A")]
          (fun s => (FS.insert s ("A") (Entry.file 9), some 5)) [] 0
          [(("A"), Entry.file 1)]).snapshots) :=
  ⟨by decide,
   claim_C3 (mkRollbackManager ("bk") true) ("op") ("t") [("A")]
     (fun s => (FS.insert s ("A") (Entry.file 9), some 5)) [] 0
     [(("A"), Entry.file 1)] 5 (by decide)⟩

/-- Witness for C4: a successful body, with a backup store containing an old
artifact whose unlink fails — the eviction warning does not affect the
successful outcome. -/
theorem claim_C4_witness :
    (((fun s => (FS.insert s ("A") (Entry.file 9), none)) :
        FS → FS × Option Nat)
      ((snapshotPhase (mkRollbackManager ("bk") true) ("op" ++ "_" ++ "t")
        [(("A"), Entry.file 1)] [("A")]).1)).2 = none
    ∧ ((protected_operation (mkRollbackManager ("bk") true) ("op") ("t") [("A")]
        (((fun s => (FS.insert s ("A") (Entry.file 9), none)) :
          FS → FS × Option Nat)) [⟨("x"), 0, false⟩] 691200
        [(("A"), Entry.file 1)]).fs
      = (((fun s => (FS.insert s ("A") (Entry.file 9), none)) :
          FS → FS × Option Nat)
        ((snapshotPhase (mkRollbackManager ("bk") true) ("op" ++ "_" ++ "t")
          [(("A"), Entry.file 1)] [("A")]).1)).1
      ∧ (protected_operation (mkRollbackManager ("bk") true) ("op") ("t") [("A")]
          (((fun s => (FS.insert s ("A") (Entry.file 9), none)) :
            FS → FS × Option Nat)) [⟨("x"), 0, false⟩] 691200
          [(("A"), Entry.file 1)]).restored = []
      ∧ (protected_operation (mkRollbackManager ("bk") true) ("op") ("t") [("A")]
          (((fun s => (FS.insert s ("A") (Entry.file 9), none)) :
            FS → FS × Option Nat)) [⟨("x"), 0, false⟩] 691200
          [(("A"), Entry.file 1)]).artifacts
        = (cleanup_old_backups 7 691200 [⟨("x"), 0, false⟩]).1
      ∧ (protected_operation (mkRollbackManager ("bk") true) ("op") ("t") [("A")]
          (((fun s => (FS.insert s ("A") (Entry.file 9), none)) :
            FS → FS × Option Nat)) [⟨("x"), 0, false⟩] 691200
          [(("A"), Entry.file 1)]).outcome = none) :=
  ⟨by decide,
   @claim_C4 Nat (mkRollbackManager ("bk") true) ("op") ("t") [("A")]
     (((fun s => (FS.insert s ("A") (Entry.file 9), none)) :
       FS → FS × Option Nat)) [⟨("x"), 0, false⟩] 691200
     [(("A"), Entry.file 1)] (by decide)⟩

/-- Witness for C6 (amended): one deletable old artifact before the failing
one, one old artifact after it. -/
theorem claim_C6_amended_witness :
    (∀ x ∈ [(⟨("p1"), 0, true⟩ : Artifact)],
      x.mtime < 691200 - 7 * 86400 → x.unlinkOk = true)
    ∧ (⟨("x"), 0, false⟩ : Artifact).mtime < 691200 - 7 * 86400
    ∧ (⟨("x"), 0, false⟩ : Artifact).unlinkOk = false
    ∧ cleanup_old_backups 7 691200
        ([⟨("p1"), 0, true⟩] ++ (⟨("x"), 0, false⟩ : Artifact) :: [⟨("q1"), 0, true⟩])
      = (List.filter (fun x => ! decide (x.mtime < 691200 - 7 * 86400))
          [⟨("p1"), 0, true⟩]
          ++ (⟨("x"), 0, false⟩ : Artifact) :: [⟨("q1"), 0, true⟩], true) :=
  ⟨by decide, by decide, by decide,
   claim_C6_amended 7 691200 [⟨("p1"), 0, true⟩] [⟨("q1"), 0, true⟩]
     ⟨("x"), 0, false⟩ (by decide) (by decide) (by decide)⟩

/-- Witness for C7: with `days = 7`, an artifact 8 days old is removed and
one exactly 1 day old is retained. -/
theorem claim_C7_witness :
    (∀ x ∈ [(⟨("old"), 0, true⟩ : Artifact), ⟨("young"), 691200, true⟩],
      x.mtime < 777600 - 7 * 86400 → x.unlinkOk = true)
    ∧ ((cleanup_old_backups 7 777600
          [(⟨("old"), 0, true⟩ : Artifact), ⟨("young"), 691200, true⟩]).1
        = List.filter (fun x => ! decide (x.mtime < 777600 - 7 * 86400))
            [(⟨("old"), 0, true⟩ : Artifact), ⟨("young"), 691200, true⟩]
      ∧ (∀ x ∈ [(⟨("old"), 0, true⟩ : Artifact), ⟨("young"), 691200, true⟩],
          x.mtime < 777600 - 7 * 86400 →
          x ∉ (cleanup_old_backups 7 777600
            [(⟨("old"), 0, true⟩ : Artifact), ⟨("young"), 691200, true⟩]).1)
      ∧ (∀ x ∈ [(⟨("old"), 0, true⟩ : Artifact), ⟨("young"), 691200, true⟩],
          777600 - 7 * 86400 ≤ x.mtime →
          x ∈ (cleanup_old_backups 7 777600
            [(⟨("old"), 0, true⟩ : Artifact), ⟨("young"), 691200, true⟩]).1)) :=
  ⟨by decide,
   claim_C7 7 777600 [(⟨("old"), 0, true⟩ : Artifact), ⟨("young"), 691200, true⟩]
     (by decide)⟩

/-- Witness for C8: an absent path `Z` in front of an existing target. -/
theorem claim_C8_witness :
    FS.lookup [(("A"), Entry.file 1)] ("Z") = none
    ∧ (doSnapshot (mkRollbackManager ("bk") true) ("id1") [(("A"), Entry.file 1)]
        ("Z") = ([(("A"), Entry.file 1)], none)
      ∧ snapshotPhase (mkRollbackManager ("bk") true) ("id1")
          [(("A"), Entry.file 1)] (("Z") :: [("A")])
        = snapshotPhase (mkRollbackManager ("bk") true) ("id1")
          [(("A"), Entry.file 1)] [("A")]) :=
  ⟨by decide,
   claim_C8 (mkRollbackManager ("bk") true) ("id1") [(("A"), Entry.file 1)]
     ("Z") [("A")] (by decide)⟩

/-- Witness for C9 (amended): the file case at `A` and the directory case at
`D`. -/
theorem claim_C9_amended_witness :
    (snapshotPhase (mkRollbackManager ("bk") true) ("op_t")
        [(("A"), Entry.file 1)] [("A"), ("A")]).2
      = [(("A"), ("bk/op_t_A")), (("A"), ("bk/op_t_A"))]
    ∧ (snapshotPhase (mkRollbackManager ("bk") true) ("op_t")
        [(("D"), Entry.dir 3)] [("D"), ("D")]).2
      = [(("D"), ("bk/op_t_D"))] :=
  ⟨(claim_C9_amended (mkRollbackManager ("bk") true) ("op_t") ("A") ("bk/op_t_A")
      1 [(("A"), Entry.file 1)] (by decide) (by decide) (by decide) (by decide)).1
      (by decide),
   (claim_C9_amended (mkRollbackManager ("bk") true) ("op_t") ("D") ("bk/op_t_D")
      3 [(("D"), Entry.dir 3)] (by decide) (by decide) (by decide) (by decide)).2
      (by decide)⟩

/-- Witness for C10: directory `D` snapshotted, deleted by the body; restore
takes the file branch, fails, and leaves `D` absent. -/
theorem claim_C10_witness :
    (mkRollbackManager ("bk") true).dirOk = true
    ∧ FS.lookup [(("D"), Entry.dir 3)] ("D") = some (.dir 3)
    ∧ backupPath (mkRollbackManager ("bk") true) ("op" ++ "_" ++ "t") ("D")
      = ("bk/op_t_D")
    ∧ FS.lookup [(("D"), Entry.dir 3)] ("bk/op_t_D") = none
    ∧ ("bk/op_t_D") ≠ ("D")
    ∧ (FS.lookup (protected_operation (mkRollbackManager ("bk") true) ("op") ("t")
        [("D")] (fun s => (FS.erase s ("D"), some 1)) [] 0
        [(("D"), Entry.dir 3)]).fs ("D") = none
      ∧ (protected_operation (mkRollbackManager ("bk") true) ("op") ("t")
          [("D")] (fun s => (FS.erase s ("D"), some 1)) [] 0
          [(("D"), Entry.dir 3)]).restored
        = [((("D"), ("bk/op_t_D")), false)]
      ∧ (protected_operation (mkRollbackManager ("bk") true) ("op") ("t")
          [("D")] (fun s => (FS.erase s ("D"), some 1)) [] 0
          [(("D"), Entry.dir 3)]).outcome = some 1) :=
  ⟨by decide, by decide, by decide, by decide, by decide,
   claim_C10 (mkRollbackManager ("bk") true) ("op") ("t") ("D") ("bk/op_t_D")
     3 1 [] 0 [(("D"), Entry.dir 3)]
     (by decide) (by decide) (by decide) (by decide) (by decide)⟩

end USManager
